import Mathlib

/-!
Verification of the assignment-transformation logic of
`example_scraper.py` (class `AssignmentScraper`).

The Python functions `_calculate_days_until_due`,
`transform_to_sheets_format`, `transform_to_notion_format` and
`transform_to_todo_format` are shallowly embedded below.  JSON documents
(the export templates and the produced export documents) are modelled by
the inductive type `Json`; input assignments are records of optional
fields (`Option` models a key that may be absent from the Python dict);
the current moment is an explicit integer parameter `now` (seconds),
replacing `datetime.now(...)`; fallible template mutation is modelled
with `Option` (Python `KeyError` / `IndexError` / `TypeError` become
`none`).  JSON numbers are modelled as integers; the claims under
verification never compute with the numeric fields, they only pass them
through or default them to `0`.
-/

/-- A model of JSON values.  Objects are ordered association lists,
mirroring Python dicts (insertion ordered, unique keys in practice). -/
inductive Json where
  | null : Json
  | bool : Bool → Json
  | num : Int → Json
  | str : String → Json
  | arr : List Json → Json
  | obj : List (String × Json) → Json

/-- An input assignment record.  Every field may be absent
(`assignment.get(...)` in the Python source); numeric fields
(`points_possible`, `estimated_hours`) are modelled as integers. -/
structure Assignment where
  assignment_id : Option String
  class_code : Option String
  class_name : Option String
  title : Option String
  type : Option String
  status : Option String
  assigned_date : Option String
  due_date : Option String
  priority : Option String
  points_possible : Option Int
  estimated_hours : Option Int
  url : Option String
  description : Option String

/-- The assignment with every field absent. -/
def emptyAssignment : Assignment :=
  ⟨none, none, none, none, none, none, none, none, none, none, none, none, none⟩

/-- Python f-string interpolation of a value that may be `None`:
`f"{x}"` renders `None` as the text `"None"`. -/
def pyStr (o : Option String) : String :=
  match o with
  | none => "None"
  | some s => s

/-- Value of a digit character, `none` on a non-digit. -/
def digitVal (c : Char) : Option Nat :=
  if c.isDigit then some (c.toNat - 48) else none

/-- Read two decimal digits from the front of a character list. -/
def read2 (cs : List Char) : Option (Nat × List Char) :=
  match cs with
  | c1 :: c2 :: rest =>
    match digitVal c1, digitVal c2 with
    | some d1, some d2 => some (10 * d1 + d2, rest)
    | _, _ => none
  | _ => none

/-- Read four decimal digits from the front of a character list. -/
def read4 (cs : List Char) : Option (Nat × List Char) :=
  match read2 cs with
  | some (hi, rest) =>
    match read2 rest with
    | some (lo, rest2) => some (100 * hi + lo, rest2)
    | none => none
  | none => none

/-- Consume one expected character. -/
def expectChar (c : Char) (cs : List Char) : Option (List Char) :=
  match cs with
  | c2 :: rest => if c2 = c then some rest else none
  | [] => none

/-- Gregorian leap-year test. -/
def isLeap (y : Int) : Bool :=
  (y % 4 == 0 && y % 100 != 0) || y % 400 == 0

/-- Number of days in a month of a given year. -/
def daysInMonth (y : Int) (m : Nat) : Nat :=
  if m = 2 then (if isLeap y then 29 else 28)
  else if m = 4 ∨ m = 6 ∨ m = 9 ∨ m = 11 then 30
  else 31

/-- Days since 1970-01-01 of a Gregorian calendar date
(the standard days-from-civil computation, floor divisions). -/
def daysFromCivil (y : Int) (m d : Nat) : Int :=
  let y2 : Int := if m ≤ 2 then y - 1 else y
  let era : Int := Int.fdiv y2 400
  let yoe : Int := y2 - era * 400
  let mp : Int := (m : Int) + (if 2 < m then -3 else 9)
  let doy : Int := Int.fdiv (153 * mp + 2) 5 + (d : Int) - 1
  let doe : Int := yoe * 365 + Int.fdiv yoe 4 - Int.fdiv yoe 100 + doy
  era * 146097 + doe - 719468

/-- Model of the library call `datetime.fromisoformat` on the subset of
ISO-8601 used here: `YYYY-MM-DD`, optionally followed by `T` or a space
and `HH:MM:SS`, optionally followed by a UTC offset `+HH:MM` / `-HH:MM`.
The result is the moment as seconds (an aware date is normalised to UTC
by subtracting its offset; a naive date is read in its own frame).
Any other shape, or an out-of-range component, is a parse failure
(`none`, the `ValueError` of the library). -/
def parseIso (s : String) : Option Int :=
  match read4 s.toList with
  | none => none
  | some (y, r1) =>
    match expectChar '-' r1 with
    | none => none
    | some r2 =>
      match read2 r2 with
      | none => none
      | some (mo, r3) =>
        match expectChar '-' r3 with
        | none => none
        | some r4 =>
          match read2 r4 with
          | none => none
          | some (d, r5) =>
            if mo < 1 ∨ 12 < mo ∨ d < 1 ∨ daysInMonth (y : Int) mo < d then none
            else
              match r5 with
              | [] => some (86400 * daysFromCivil (y : Int) mo d)
              | sep :: r6 =>
                if sep ≠ 'T' ∧ sep ≠ ' ' then none
                else
                  match read2 r6 with
                  | none => none
                  | some (h, r7) =>
                    match expectChar ':' r7 with
                    | none => none
                    | some r8 =>
                      match read2 r8 with
                      | none => none
                      | some (mi, r9) =>
                        match expectChar ':' r9 with
                        | none => none
                        | some r10 =>
                          match read2 r10 with
                          | none => none
                          | some (sec, r11) =>
                            if 23 < h ∨ 59 < mi ∨ 59 < sec then none
                            else
                              let base : Int :=
                                86400 * daysFromCivil (y : Int) mo d +
                                  3600 * (h : Int) + 60 * (mi : Int) + (sec : Int)
                              match r11 with
                              | [] => some base
                              | sign :: r12 =>
                                if sign ≠ '+' ∧ sign ≠ '-' then none
                                else
                                  match read2 r12 with
                                  | none => none
                                  | some (oh, r13) =>
                                    match expectChar ':' r13 with
                                    | none => none
                                    | some r14 =>
                                      match read2 r14 with
                                      | none => none
                                      | some (om, r15) =>
                                        if ¬ r15.isEmpty ∨ 23 < oh ∨ 59 < om then none
                                        else
                                          let off : Int := 3600 * (oh : Int) + 60 * (om : Int)
                                          some (base - (if sign = '+' then off else -off))

/-- Model of Python `s.replace('Z', '+00:00')`: every occurrence of the
single character `Z` is replaced by the six characters `+00:00`. -/
def replaceZchars : List Char → List Char
  | [] => []
  | c :: rest =>
    if c = 'Z' then '+' :: '0' :: '0' :: ':' :: '0' :: '0' :: replaceZchars rest
    else c :: replaceZchars rest

/-- String-level wrapper of `replaceZchars`. -/
def pyReplaceZ (s : String) : String :=
  ⟨replaceZchars s.data⟩

/-- Embedding of `AssignmentScraper._calculate_days_until_due`.
`now` is the current moment (seconds) in the frame of the due date,
standing for `datetime.now(due_date.tzinfo)`.  Python's falsy test
`if not due_date_str` sends both `None` and the empty string to `None`;
`timedelta.days` is the whole-day difference rounded toward negative
infinity, which for the positive divisor 86400 is Lean's `Int` division
`/` (and `Int.fdiv`). -/
def calculate_days_until_due (now : Int) (due_date_str : Option String) : Option Int :=
  match due_date_str with
  | none => none
  | some s =>
    if s = "" then none
    else
      match parseIso (pyReplaceZ s) with
      | none => none
      | some t => some ((t - now) / 86400)

/-- One Google-Sheets row of an assignment: the 13 cells built in
`transform_to_sheets_format`, in source order; absent string fields
default to `''`, absent numeric fields to `''`, and the derived
days-until-due cell is `None` (JSON null) when the computation fails. -/
def sheetsRow (now : Int) (a : Assignment) : Json :=
  Json.arr [
    Json.str (a.assignment_id.getD ""),
    Json.str (a.class_code.getD ""),
    Json.str (a.class_name.getD ""),
    Json.str (a.title.getD ""),
    Json.str (a.type.getD ""),
    Json.str (a.status.getD ""),
    Json.str (a.assigned_date.getD ""),
    Json.str (a.due_date.getD ""),
    (match calculate_days_until_due now a.due_date with
     | none => Json.null
     | some d => Json.num d),
    Json.str (a.priority.getD ""),
    (match a.points_possible with
     | none => Json.str ""
     | some n => Json.num n),
    (match a.estimated_hours with
     | none => Json.str ""
     | some n => Json.num n),
    Json.str (a.url.getD "")
  ]

/-- Association-list lookup, first binding wins (Python dict read). -/
def kvLookup (k : String) : List (String × Json) → Option Json
  | [] => none
  | (k2, v) :: rest => if k2 = k then some v else kvLookup k rest

/-- Association-list update (Python `d[k] = v`): replace the first
binding of `k` in place, or append a new binding at the end. -/
def setKey (k : String) (v : Json) : List (String × Json) → List (String × Json)
  | [] => [(k, v)]
  | (k2, v2) :: rest =>
    if k2 = k then (k, v) :: rest else (k2, v2) :: setKey k v rest

/-- Read a key of a JSON object (`j[k]` on a dict); `none` models
`KeyError` (key absent) and `TypeError` (not a dict). -/
def getKey (k : String) (j : Json) : Option Json :=
  match j with
  | Json.obj kvs => kvLookup k kvs
  | _ => none

/-- Rewrite the value of an existing key of a JSON object through `f`
(the read step of `j[k][...] = ...`); the key must already be present. -/
def updKey (k : String) (f : Json → Option Json) (j : Json) : Option Json :=
  match j with
  | Json.obj kvs =>
    match kvLookup k kvs with
    | none => none
    | some v =>
      match f v with
      | none => none
      | some v2 => some (Json.obj (setKey k v2 kvs))
  | _ => none

/-- Rewrite the element at index `i` of a JSON array through `f`;
`none` models `IndexError` (index out of range) and `TypeError`. -/
def updIdx (i : Nat) (f : Json → Option Json) (j : Json) : Option Json :=
  match j with
  | Json.arr xs =>
    match xs[i]? with
    | none => none
    | some x =>
      match f x with
      | none => none
      | some x2 => some (Json.arr (xs.set i x2))
  | _ => none

/-- Set a key of a JSON object (`j[k] = v`), creating it when absent;
fails only when `j` is not an object. -/
def setObjKey (k : String) (v : Json) (j : Json) : Option Json :=
  match j with
  | Json.obj kvs => some (Json.obj (setKey k v kvs))
  | _ => none

/-- Embedding of `transform_to_sheets_format`: build one row per
assignment in input order and write them into
`template['sheet_tabs'][0]['rows']`. -/
def transform_to_sheets_format (now : Int) (assignments : List Assignment)
    (template : Json) : Option Json :=
  updKey "sheet_tabs"
    (updIdx 0 (setObjKey "rows" (Json.arr (assignments.map (sheetsRow now)))))
    template

/-- One Notion page of an assignment, as built in
`transform_to_notion_format`: synthesized `page_id`, the property map
(numeric fields default to `0`, the rest to `''`, `Tags` is always the
empty list), and the fixed four-block content sequence. -/
def notionPage (a : Assignment) : Json :=
  Json.obj [
    ("page_id", Json.str ("page_" ++ pyStr a.assignment_id)),
    ("properties", Json.obj [
      ("Assignment ID", Json.str (a.assignment_id.getD "")),
      ("Title", Json.str (a.title.getD "")),
      ("Class", Json.str (a.class_code.getD "")),
      ("Type", Json.str (a.type.getD "")),
      ("Status", Json.str (a.status.getD "")),
      ("Priority", Json.str (a.priority.getD "")),
      ("Assigned Date", Json.str (a.assigned_date.getD "")),
      ("Due Date", Json.str (a.due_date.getD "")),
      ("Points", Json.num (a.points_possible.getD 0)),
      ("Estimated Hours", Json.num (a.estimated_hours.getD 0)),
      ("URL", Json.str (a.url.getD "")),
      ("Tags", Json.arr [])
    ]),
    ("content", Json.arr [
      Json.obj [("type", Json.str "heading_2"), ("text", Json.str "Description")],
      Json.obj [("type", Json.str "paragraph"), ("text", Json.str (a.description.getD ""))],
      Json.obj [("type", Json.str "heading_2"), ("text", Json.str "Checklist")],
      Json.obj [("type", Json.str "to_do"), ("text", Json.str "Complete assignment"),
                ("checked", Json.bool false)]
    ])
  ]

/-- Embedding of `transform_to_notion_format`: one page per assignment
in input order, written into `template['pages']` (dict assignment, the
key is created when absent). -/
def transform_to_notion_format (assignments : List Assignment)
    (template : Json) : Option Json :=
  setObjKey "pages" (Json.arr (assignments.map notionPage)) template

/-- One todo task of an assignment, as built in
`transform_to_todo_format`.  `task_id` and the composed title use plain
f-string interpolation (absent values render as `"None"`); `priority`
defaults to `"medium"`; the checklist is the fixed three unchecked
items. -/
def todoTask (a : Assignment) : Json :=
  Json.obj [
    ("task_id", Json.str ("task_" ++ pyStr a.assignment_id)),
    ("title", Json.str (pyStr a.class_code ++ ": " ++ pyStr a.title)),
    ("description", Json.str (a.description.getD "")),
    ("due_date", Json.str (a.due_date.getD "")),
    ("priority", Json.str (a.priority.getD "medium")),
    ("estimated_time", Json.str (toString (a.estimated_hours.getD 0) ++ " hours")),
    ("tags", Json.arr [Json.str (a.type.getD ""), Json.str (a.class_code.getD "")]),
    ("url", Json.str (a.url.getD "")),
    ("checklist", Json.arr [
      Json.obj [("item", Json.str "Start assignment"), ("completed", Json.bool false)],
      Json.obj [("item", Json.str "Complete assignment"), ("completed", Json.bool false)],
      Json.obj [("item", Json.str "Submit assignment"), ("completed", Json.bool false)]
    ])
  ]

/-- First categorization test of `transform_to_todo_format`:
`days_until_due is not None and days_until_due <= 3`. -/
def isUrgent (now : Int) (a : Assignment) : Bool :=
  match calculate_days_until_due now a.due_date with
  | none => false
  | some d => d ≤ 3

/-- Second categorization test of `transform_to_todo_format`:
`assignment.get('priority') in ['critical', 'high']`
(an absent priority is not in the list). -/
def isImportantPriority (a : Assignment) : Bool :=
  match a.priority with
  | none => false
  | some p => p == "critical" || p == "high"

/-- The categorization loop of `transform_to_todo_format`: each
assignment's task is appended to exactly one of
(urgent_important, important_not_urgent, regular), first matching rule
first, preserving input order within each bucket. -/
def todoBuckets (now : Int) : List Assignment → List Json × List Json × List Json
  | [] => ([], [], [])
  | a :: rest =>
    let bs := todoBuckets now rest
    if isUrgent now a then (todoTask a :: bs.1, bs.2.1, bs.2.2)
    else if isImportantPriority a then (bs.1, todoTask a :: bs.2.1, bs.2.2)
    else (bs.1, bs.2.1, todoTask a :: bs.2.2)

/-- Embedding of `transform_to_todo_format`: categorize and then write
the three task lists into `template['categories'][0..2]['tasks']`, in
the source's mutation order. -/
def transform_to_todo_format (now : Int) (assignments : List Assignment)
    (template : Json) : Option Json :=
  let bs := todoBuckets now assignments
  (updKey "categories" (updIdx 0 (setObjKey "tasks" (Json.arr bs.1))) template).bind
    (fun t1 =>
      (updKey "categories" (updIdx 1 (setObjKey "tasks" (Json.arr bs.2.1))) t1).bind
        (fun t2 =>
          updKey "categories" (updIdx 2 (setObjKey "tasks" (Json.arr bs.2.2))) t2))

/-- Read the element at index `i` of a JSON array. -/
def getIdx (i : Nat) (j : Json) : Option Json :=
  match j with
  | Json.arr xs => xs[i]?
  | _ => none

/-- Length of a JSON array. -/
def arrLen (j : Json) : Option Nat :=
  match j with
  | Json.arr xs => some xs.length
  | _ => none

/-- The rows slot of a sheets export document:
`document['sheet_tabs'][0]['rows']`. -/
def sheetsRowsOf (j : Json) : Option Json :=
  match getKey "sheet_tabs" j with
  | some tabs =>
    match getIdx 0 tabs with
    | some tab0 => getKey "rows" tab0
    | none => none
  | none => none

/-- A frozen evaluation moment: midnight UTC on 2026-10-12, i.e.
`parseIso "2026-10-12T00:00:00+00:00"`. -/
def now0 : Int := 1791763200

/-- Example assignment due exactly 3 days after `now0`, low priority. -/
def exDue3 : Assignment :=
  { emptyAssignment with
      assignment_id := some "A1",
      due_date := some "2026-10-15T00:00:00Z",
      priority := some "low" }

/-- Example assignment due 4 days after `now0`, high priority. -/
def exDue4High : Assignment :=
  { emptyAssignment with
      assignment_id := some "A2",
      due_date := some "2026-10-16T00:00:00Z",
      priority := some "high" }

/-- Example assignment due 10 days after `now0`, medium priority. -/
def exDue10Med : Assignment :=
  { emptyAssignment with
      assignment_id := some "A3",
      due_date := some "2026-10-22T00:00:00Z",
      priority := some "medium" }

lemma kvLookup_setKey_self (k : String) (v : Json) (kvs : List (String × Json)) :
    kvLookup k (setKey k v kvs) = some v := by
  induction kvs with
  | nil => simp [setKey, kvLookup]
  | cons kv rest ih =>
    obtain ⟨k2, v2⟩ := kv
    by_cases h : k2 = k
    · simp [setKey, h, kvLookup]
    · simp [setKey, h, kvLookup, ih]

lemma kvLookup_setKey_other (k k2 : String) (v : Json) (kvs : List (String × Json))
    (h : k2 ≠ k) : kvLookup k2 (setKey k v kvs) = kvLookup k2 kvs := by
  induction kvs with
  | nil => simp [setKey, kvLookup, Ne.symm h]
  | cons kv rest ih =>
    obtain ⟨k3, v3⟩ := kv
    by_cases h3 : k3 = k
    · subst h3
      simp [setKey, kvLookup, Ne.symm h]
    · simp [setKey, kvLookup, h3, ih]

lemma updKey_obj (k : String) (f : Json → Option Json) (j out : Json)
    (h : updKey k f j = some out) :
    ∃ kvs v v2, j = Json.obj kvs ∧ kvLookup k kvs = some v ∧ f v = some v2 ∧
      out = Json.obj (setKey k v2 kvs) := by
  cases j with
  | obj kvs =>
    simp only [updKey] at h
    cases hv : kvLookup k kvs with
    | none => simp [hv] at h
    | some v =>
      cases hf : f v with
      | none => simp [hv, hf] at h
      | some v2 =>
        simp only [hv, hf, Option.some.injEq] at h
        exact ⟨kvs, v, v2, rfl, hv, hf, h.symm⟩
  | null => simp [updKey] at h
  | bool b => simp [updKey] at h
  | num n => simp [updKey] at h
  | str s => simp [updKey] at h
  | arr xs => simp [updKey] at h

lemma updKey_getKey_self (k : String) (f : Json → Option Json) (j out : Json)
    (h : updKey k f j = some out) :
    ∃ v v2, getKey k j = some v ∧ f v = some v2 ∧ getKey k out = some v2 := by
  obtain ⟨kvs, v, v2, hj, hv, hf, hout⟩ := updKey_obj k f j out h
  subst hj; subst hout
  exact ⟨v, v2, hv, hf, kvLookup_setKey_self k v2 kvs⟩

lemma updKey_getKey_other (k k2 : String) (f : Json → Option Json) (j out : Json)
    (h : updKey k f j = some out) (hk : k2 ≠ k) : getKey k2 out = getKey k2 j := by
  obtain ⟨kvs, v, v2, hj, hv, hf, hout⟩ := updKey_obj k f j out h
  subst hj; subst hout
  exact kvLookup_setKey_other k k2 v2 kvs hk

lemma setObjKey_obj (k : String) (v : Json) (j out : Json)
    (h : setObjKey k v j = some out) :
    ∃ kvs, j = Json.obj kvs ∧ out = Json.obj (setKey k v kvs) := by
  cases j with
  | obj kvs =>
    simp only [setObjKey, Option.some.injEq] at h
    exact ⟨kvs, rfl, h.symm⟩
  | null => simp [setObjKey] at h
  | bool b => simp [setObjKey] at h
  | num n => simp [setObjKey] at h
  | str s => simp [setObjKey] at h
  | arr xs => simp [setObjKey] at h

lemma setObjKey_getKey_self (k : String) (v : Json) (j out : Json)
    (h : setObjKey k v j = some out) : getKey k out = some v := by
  obtain ⟨kvs, hj, hout⟩ := setObjKey_obj k v j out h
  subst hout
  exact kvLookup_setKey_self k v kvs

lemma setObjKey_getKey_other (k k2 : String) (v : Json) (j out : Json)
    (h : setObjKey k v j = some out) (hk : k2 ≠ k) : getKey k2 out = getKey k2 j := by
  obtain ⟨kvs, hj, hout⟩ := setObjKey_obj k v j out h
  subst hj; subst hout
  exact kvLookup_setKey_other k k2 v kvs hk

lemma updIdx_arr (i : Nat) (f : Json → Option Json) (j out : Json)
    (h : updIdx i f j = some out) :
    ∃ xs x x2, j = Json.arr xs ∧ xs[i]? = some x ∧ f x = some x2 ∧
      out = Json.arr (xs.set i x2) := by
  cases j with
  | arr xs =>
    simp only [updIdx] at h
    cases hx : xs[i]? with
    | none => simp [hx] at h
    | some x =>
      cases hf : f x with
      | none => simp [hx, hf] at h
      | some x2 =>
        simp only [hx, hf, Option.some.injEq] at h
        exact ⟨xs, x, x2, rfl, hx, hf, h.symm⟩
  | null => simp [updIdx] at h
  | bool b => simp [updIdx] at h
  | num n => simp [updIdx] at h
  | str s => simp [updIdx] at h
  | obj kvs => simp [updIdx] at h

lemma updIdx_getIdx_self (i : Nat) (f : Json → Option Json) (j out : Json)
    (h : updIdx i f j = some out) :
    ∃ x x2, getIdx i j = some x ∧ f x = some x2 ∧ getIdx i out = some x2 := by
  obtain ⟨xs, x, x2, hj, hx, hf, hout⟩ := updIdx_arr i f j out h
  subst hj; subst hout
  refine ⟨x, x2, hx, hf, ?_⟩
  have hi : i < xs.length := by
    by_contra hge
    simp [List.getElem?_eq_none (Nat.le_of_not_lt hge)] at hx
  simp [getIdx, List.getElem?_set_self', hi, List.getElem?_eq_getElem hi]

lemma updIdx_getIdx_other (i i2 : Nat) (f : Json → Option Json) (j out : Json)
    (h : updIdx i f j = some out) (hi : i2 ≠ i) : getIdx i2 out = getIdx i2 j := by
  obtain ⟨xs, x, x2, hj, hx, hf, hout⟩ := updIdx_arr i f j out h
  subst hj; subst hout
  simp [getIdx, List.getElem?_set_ne (Ne.symm hi)]

lemma updIdx_arrLen (i : Nat) (f : Json → Option Json) (j out : Json)
    (h : updIdx i f j = some out) : arrLen out = arrLen j := by
  obtain ⟨xs, x, x2, hj, hx, hf, hout⟩ := updIdx_arr i f j out h
  subst hj; subst hout
  simp [arrLen]

/-- C5: `derive_days_until_due` returns `none` when its input is absent
and when its input fails to parse as an ISO-8601 date/time string, and
it never raises an error (it is a total function); in particular it
returns `none` on `None` and on `"not-a-date"`. -/
theorem daysUntilDue_silent_failure :
    (∀ now : Int, calculate_days_until_due now none = none) ∧
    (∀ (now : Int) (s : String), parseIso (pyReplaceZ s) = none →
      calculate_days_until_due now (some s) = none) ∧
    (∀ now : Int, calculate_days_until_due now (some "not-a-date") = none) := by
  refine ⟨fun now => rfl, ?_, fun now => rfl⟩
  intro now s hp
  unfold calculate_days_until_due
  by_cases hs : s = ""
  · simp [hs]
  · simp [hs, hp]

/-- Witness for C5 at the concrete malformed input `"definitely-no"`. -/
theorem daysUntilDue_silent_failure_witness :
    parseIso (pyReplaceZ "definitely-no") = none ∧
    calculate_days_until_due 0 (some "definitely-no") = none :=
  ⟨rfl, daysUntilDue_silent_failure.2.1 0 "definitely-no" rfl⟩

/-- C6: on a well-formed due date, `derive_days_until_due` is the
whole-day difference (due minus now) rounded toward negative infinity
(`Int.fdiv`, the semantics of Python `timedelta.days`); a strictly
past-due date yields a negative integer, and a positive difference of
less than one day yields 0. -/
theorem daysUntilDue_floor_semantics :
    (∀ (now t : Int) (s : String), s ≠ "" → parseIso (pyReplaceZ s) = some t →
      calculate_days_until_due now (some s) = some (Int.fdiv (t - now) 86400)) ∧
    (∀ (now t : Int) (s : String), s ≠ "" → parseIso (pyReplaceZ s) = some t →
      t < now → ∃ d, calculate_days_until_due now (some s) = some d ∧ d < 0) ∧
    (∀ (now t : Int) (s : String), s ≠ "" → parseIso (pyReplaceZ s) = some t →
      now < t → t - now < 86400 →
      calculate_days_until_due now (some s) = some 0) := by
  have key : ∀ (now t : Int) (s : String), s ≠ "" → parseIso (pyReplaceZ s) = some t →
      calculate_days_until_due now (some s) = some ((t - now) / 86400) := by
    intro now t s hs hp
    unfold calculate_days_until_due
    simp [hs, hp]
  refine ⟨?_, ?_, ?_⟩
  · intro now t s hs hp
    rw [key now t s hs hp, Int.fdiv_eq_ediv]
    decide
  · intro now t s hs hp hlt
    exact ⟨(t - now) / 86400, key now t s hs hp, by omega⟩
  · intro now t s hs hp h1 h2
    rw [key now t s hs hp]
    congr 1
    omega

/-- Witness for C6 at `now0` (2026-10-12 00:00 UTC): a due date two days
in the past yields a negative count, a due date half a day ahead yields
0, and a due date three days ahead yields the floor of the difference. -/
theorem daysUntilDue_floor_semantics_witness :
    (∃ d, calculate_days_until_due now0 (some "2026-10-10T00:00:00Z") = some d ∧ d < 0) ∧
    calculate_days_until_due now0 (some "2026-10-12T12:00:00Z") = some 0 ∧
    calculate_days_until_due now0 (some "2026-10-15T00:00:00Z") =
      some (Int.fdiv (1792022400 - now0) 86400) :=
  ⟨daysUntilDue_floor_semantics.2.1 now0 1791590400 "2026-10-10T00:00:00Z"
      (by decide) (by decide) (by decide),
   daysUntilDue_floor_semantics.2.2 now0 1791806400 "2026-10-12T12:00:00Z"
      (by decide) (by decide) (by decide) (by decide),
   daysUntilDue_floor_semantics.1 now0 1792022400 "2026-10-15T00:00:00Z"
      (by decide) (by decide)⟩

/-- C1: the bucket of each assignment is chosen by the first matching
rule, in order: urgent when `derive_days_until_due` is not `none` and is
at most 3, else important when the priority is `critical` or `high`,
else regular; concretely, a due date exactly 3 days out is urgent, 4
days out with high priority is important, 10 days out with medium
priority is regular. -/
theorem toTodo_first_match_rule :
    (∀ (now : Int) (a : Assignment),
      (isUrgent now a = true ↔
        ∃ d, calculate_days_until_due now a.due_date = some d ∧ d ≤ 3) ∧
      (isImportantPriority a = true ↔
        a.priority = some "critical" ∨ a.priority = some "high") ∧
      todoBuckets now [a] =
        (if isUrgent now a then ([todoTask a], [], [])
         else if isImportantPriority a then ([], [todoTask a], [])
         else ([], [], [todoTask a]))) ∧
    todoBuckets now0 [exDue3] = ([todoTask exDue3], [], []) ∧
    todoBuckets now0 [exDue4High] = ([], [todoTask exDue4High], []) ∧
    todoBuckets now0 [exDue10Med] = ([], [], [todoTask exDue10Med]) := by
  refine ⟨?_, rfl, rfl, rfl⟩
  intro now a
  refine ⟨?_, ?_, ?_⟩
  · unfold isUrgent
    cases h : calculate_days_until_due now a.due_date with
    | none => simp
    | some d => simp
  · unfold isImportantPriority
    cases a.priority with
    | none => simp
    | some p => simp
  · cases h1 : isUrgent now a <;> cases h2 : isImportantPriority a <;>
      simp [todoBuckets, h1, h2]

/-- C2: the three buckets of `to_todo` partition the input: every
assignment's task lands in exactly one bucket, and each bucket lists the
tasks of its matching assignments in input order. -/
theorem toTodo_partition (now : Int) (as : List Assignment) :
    (todoBuckets now as).1 = (as.filter (fun a => isUrgent now a)).map todoTask ∧
    (todoBuckets now as).2.1 =
      (as.filter (fun a => !isUrgent now a && isImportantPriority a)).map todoTask ∧
    (todoBuckets now as).2.2 =
      (as.filter (fun a => !isUrgent now a && !isImportantPriority a)).map todoTask ∧
    (todoBuckets now as).1.length + (todoBuckets now as).2.1.length +
      (todoBuckets now as).2.2.length = as.length := by
  induction as with
  | nil => simp [todoBuckets]
  | cons a rest ih =>
    obtain ⟨h1, h2, h3, h4⟩ := ih
    rw [h1, h2, h3] at h4
    simp only [List.length_map] at h4
    cases hu : isUrgent now a <;> cases hi : isImportantPriority a <;>
      simp [todoBuckets, hu, hi, h1, h2, h3, List.filter_cons] <;> omega

/-- C9: with the evaluation moment frozen, each of the three
transformations is a deterministic function of the assignments, the
template and the clock: equal inputs give equal outputs. -/
theorem transforms_deterministic (now1 now2 : Int) (as1 as2 : List Assignment)
    (t1 t2 : Json) (h1 : now1 = now2) (h2 : as1 = as2) (h3 : t1 = t2) :
    transform_to_sheets_format now1 as1 t1 = transform_to_sheets_format now2 as2 t2 ∧
    transform_to_notion_format as1 t1 = transform_to_notion_format as2 t2 ∧
    transform_to_todo_format now1 as1 t1 = transform_to_todo_format now2 as2 t2 := by
  subst h1; subst h2; subst h3
  exact ⟨rfl, rfl, rfl⟩

/-- Witness for C9 at a concrete input. -/
theorem transforms_deterministic_witness :
    transform_to_sheets_format now0 [exDue3] (Json.obj []) =
      transform_to_sheets_format now0 [exDue3] (Json.obj []) ∧
    transform_to_notion_format [exDue3] (Json.obj []) =
      transform_to_notion_format [exDue3] (Json.obj []) ∧
    transform_to_todo_format now0 [exDue3] (Json.obj []) =
      transform_to_todo_format now0 [exDue3] (Json.obj []) :=
  transforms_deterministic now0 now0 [exDue3] [exDue3] (Json.obj []) (Json.obj [])
    rfl rfl rfl

/-- C3: `to_sheets` produces exactly one row per input assignment, in
input order, and every row has exactly 13 cells in the order id,
class_code, class_name, title, type, status, assigned_date, due_date,
days_until_due, priority, points_possible, estimated_hours, url; every
absent optional input field renders as the empty string (the derived
days cell, not an input field, is JSON null when the computation
fails). -/
theorem toSheets_shape :
    (∀ (now : Int) (as : List Assignment) (t out : Json),
      transform_to_sheets_format now as t = some out →
      sheetsRowsOf out = some (Json.arr (as.map (sheetsRow now))) ∧
      (as.map (sheetsRow now)).length = as.length) ∧
    (∀ (now : Int) (a : Assignment), ∃ cells,
      sheetsRow now a = Json.arr cells ∧ cells.length = 13 ∧
      cells[0]? = some (Json.str (a.assignment_id.getD "")) ∧
      cells[1]? = some (Json.str (a.class_code.getD "")) ∧
      cells[2]? = some (Json.str (a.class_name.getD "")) ∧
      cells[3]? = some (Json.str (a.title.getD "")) ∧
      cells[4]? = some (Json.str (a.type.getD "")) ∧
      cells[5]? = some (Json.str (a.status.getD "")) ∧
      cells[6]? = some (Json.str (a.assigned_date.getD "")) ∧
      cells[7]? = some (Json.str (a.due_date.getD "")) ∧
      cells[8]? = some (match calculate_days_until_due now a.due_date with
        | none => Json.null
        | some d => Json.num d) ∧
      cells[9]? = some (Json.str (a.priority.getD "")) ∧
      cells[10]? = some (match a.points_possible with
        | none => Json.str ""
        | some n => Json.num n) ∧
      cells[11]? = some (match a.estimated_hours with
        | none => Json.str ""
        | some n => Json.num n) ∧
      cells[12]? = some (Json.str (a.url.getD ""))) ∧
    sheetsRow 0 emptyAssignment = Json.arr
      [Json.str "", Json.str "", Json.str "", Json.str "", Json.str "", Json.str "",
       Json.str "", Json.str "", Json.null, Json.str "", Json.str "", Json.str "",
       Json.str ""] := by
  refine ⟨?_, ?_, rfl⟩
  · intro now as t out h
    refine ⟨?_, by simp⟩
    unfold transform_to_sheets_format at h
    obtain ⟨v, v2, hv, hf, hout⟩ := updKey_getKey_self _ _ _ _ h
    obtain ⟨x, x2, hx, hfx, hx2⟩ := updIdx_getIdx_self _ _ _ _ hf
    have hrows := setObjKey_getKey_self _ _ _ _ hfx
    simp [sheetsRowsOf, hout, hx2, hrows]
  · intro now a
    exact ⟨_, rfl, rfl, rfl, rfl, rfl, rfl, rfl, rfl, rfl, rfl, rfl, rfl, rfl, rfl, rfl⟩

/-- Witness for C3: transforming one assignment through a minimal
template yields exactly that assignment's 13-cell row. -/
theorem toSheets_shape_witness :
    sheetsRowsOf (Json.obj [("sheet_tabs", Json.arr
        [Json.obj [("rows", Json.arr [sheetsRow now0 exDue3])]])]) =
      some (Json.arr ([exDue3].map (sheetsRow now0))) ∧
    ([exDue3].map (sheetsRow now0)).length = 1 :=
  toSheets_shape.1 now0 [exDue3] (Json.obj [("sheet_tabs", Json.arr [Json.obj []])])
    _ rfl

/-- C4: `to_notion` produces exactly one page per input assignment, in
input order; each page's `page_id` is `"page_" + id`; the numeric
properties Points and Estimated Hours default to 0 when absent while
every other absent property defaults to the empty string (`Tags` is
constantly the empty list); and each page's content is the fixed
four-block sequence. -/
theorem toNotion_shape :
    (∀ (as : List Assignment) (t out : Json),
      transform_to_notion_format as t = some out →
      getKey "pages" out = some (Json.arr (as.map notionPage)) ∧
      (as.map notionPage).length = as.length) ∧
    (∀ (a : Assignment) (s : String), a.assignment_id = some s →
      getKey "page_id" (notionPage a) = some (Json.str ("page_" ++ s))) ∧
    (∀ a : Assignment, getKey "content" (notionPage a) = some (Json.arr
      [Json.obj [("type", Json.str "heading_2"), ("text", Json.str "Description")],
       Json.obj [("type", Json.str "paragraph"), ("text", Json.str (a.description.getD ""))],
       Json.obj [("type", Json.str "heading_2"), ("text", Json.str "Checklist")],
       Json.obj [("type", Json.str "to_do"), ("text", Json.str "Complete assignment"),
                 ("checked", Json.bool false)]])) ∧
    getKey "properties" (notionPage emptyAssignment) = some (Json.obj
      [("Assignment ID", Json.str ""), ("Title", Json.str ""), ("Class", Json.str ""),
       ("Type", Json.str ""), ("Status", Json.str ""), ("Priority", Json.str ""),
       ("Assigned Date", Json.str ""), ("Due Date", Json.str ""),
       ("Points", Json.num 0), ("Estimated Hours", Json.num 0),
       ("URL", Json.str ""), ("Tags", Json.arr [])]) := by
  refine ⟨?_, ?_, fun a => rfl, rfl⟩
  · intro as t out h
    unfold transform_to_notion_format at h
    exact ⟨setObjKey_getKey_self _ _ _ _ h, by simp⟩
  · intro a s hs
    simp [notionPage, getKey, kvLookup, pyStr, hs]

/-- Witness for C4: one page through an empty template, and the
synthesized page identifier of a concrete assignment. -/
theorem toNotion_shape_witness :
    (getKey "pages" (Json.obj [("pages", Json.arr [notionPage exDue3])]) =
       some (Json.arr ([exDue3].map notionPage)) ∧
     ([exDue3].map notionPage).length = 1) ∧
    getKey "page_id" (notionPage exDue3) = some (Json.str ("page_" ++ "A1")) :=
  ⟨toNotion_shape.1 [exDue3] (Json.obj []) _ rfl,
   toNotion_shape.2.1 exDue3 "A1" rfl⟩

/-- C7 counterexample: in `to_todo`'s task record an absent priority
does not default to the empty string or to zero: it defaults to the
string `"medium"`. -/
theorem todo_defaults_counterexample :
    getKey "priority" (todoTask emptyAssignment) = some (Json.str "medium") ∧
    Json.str "medium" ≠ Json.str "" ∧
    Json.str "medium" ≠ Json.num 0 := by
  refine ⟨rfl, ?_, ?_⟩
  · intro h
    injection h with h2
    exact absurd h2 (by decide)
  · intro h
    exact Json.noConfusion h

/-- C7 amended: in `to_sheets` and `to_notion` every absent optional
field defaults to the empty string or to numeric zero; in `to_todo`,
absent fields default to the empty string (and hours to zero) except
that an absent priority defaults to `"medium"`, and `assignment_id`,
`class_code` and `title` are also used for derived naming, an absent
value rendering as the text `"None"` inside `task_id` and the composed
title. -/
theorem export_defaults_amended :
    (∀ now : Int, sheetsRow now emptyAssignment = Json.arr
      [Json.str "", Json.str "", Json.str "", Json.str "", Json.str "", Json.str "",
       Json.str "", Json.str "", Json.null, Json.str "", Json.str "", Json.str "",
       Json.str ""]) ∧
    notionPage emptyAssignment = Json.obj [
      ("page_id", Json.str "page_None"),
      ("properties", Json.obj
        [("Assignment ID", Json.str ""), ("Title", Json.str ""), ("Class", Json.str ""),
         ("Type", Json.str ""), ("Status", Json.str ""), ("Priority", Json.str ""),
         ("Assigned Date", Json.str ""), ("Due Date", Json.str ""),
         ("Points", Json.num 0), ("Estimated Hours", Json.num 0),
         ("URL", Json.str ""), ("Tags", Json.arr [])]),
      ("content", Json.arr
        [Json.obj [("type", Json.str "heading_2"), ("text", Json.str "Description")],
         Json.obj [("type", Json.str "paragraph"), ("text", Json.str "")],
         Json.obj [("type", Json.str "heading_2"), ("text", Json.str "Checklist")],
         Json.obj [("type", Json.str "to_do"), ("text", Json.str "Complete assignment"),
                   ("checked", Json.bool false)]])] ∧
    todoTask emptyAssignment = Json.obj [
      ("task_id", Json.str "task_None"),
      ("title", Json.str "None: None"),
      ("description", Json.str ""),
      ("due_date", Json.str ""),
      ("priority", Json.str "medium"),
      ("estimated_time", Json.str "0 hours"),
      ("tags", Json.arr [Json.str "", Json.str ""]),
      ("url", Json.str ""),
      ("checklist", Json.arr
        [Json.obj [("item", Json.str "Start assignment"), ("completed", Json.bool false)],
         Json.obj [("item", Json.str "Complete assignment"), ("completed", Json.bool false)],
         Json.obj [("item", Json.str "Submit assignment"), ("completed", Json.bool false)]])] ∧
    (∀ a : Assignment, a.priority = none →
      getKey "priority" (todoTask a) = some (Json.str "medium")) ∧
    (∀ a : Assignment, a.class_code = none → a.title = none →
      getKey "title" (todoTask a) = some (Json.str "None: None")) := by
  refine ⟨fun now => rfl, rfl, rfl, ?_, ?_⟩
  · intro a h
    simp [todoTask, getKey, kvLookup, h]
  · intro a h1 h2
    simp [todoTask, getKey, kvLookup, pyStr, h1, h2]

/-- Witness for C7's amended claim at the all-absent assignment. -/
theorem export_defaults_amended_witness :
    getKey "title" (todoTask emptyAssignment) = some (Json.str "None: None") :=
  export_defaults_amended.2.2.2.2 emptyAssignment rfl rfl

/-- C10: `to_sheets` requires the template's `sheet_tabs` list to have a
first element that is an object, and `to_todo` requires the template's
`categories` list to have three object elements; under those structural
preconditions the operations succeed on the template, and on a template
lacking them (no such key, an empty list, or fewer than 3 categories)
they fail with no output. -/
theorem template_structural_precondition :
    (∀ (now : Int) (as : List Assignment) (kvs tkvs : List (String × Json))
       (rest : List Json),
      kvLookup "sheet_tabs" kvs = some (Json.arr (Json.obj tkvs :: rest)) →
      (transform_to_sheets_format now as (Json.obj kvs)).isSome = true) ∧
    (∀ (now : Int) (as : List Assignment) (kvs : List (String × Json))
       (k0 k1 k2 : List (String × Json)) (rest : List Json),
      kvLookup "categories" kvs =
        some (Json.arr (Json.obj k0 :: Json.obj k1 :: Json.obj k2 :: rest)) →
      (transform_to_todo_format now as (Json.obj kvs)).isSome = true) ∧
    transform_to_todo_format 0 [] (Json.obj
      [("categories", Json.arr [Json.obj [], Json.obj []])]) = none ∧
    transform_to_sheets_format 0 [] (Json.obj [("sheet_tabs", Json.arr [])]) = none ∧
    transform_to_sheets_format 0 [] (Json.obj []) = none := by
  refine ⟨?_, ?_, rfl, rfl, rfl⟩
  · intro now as kvs tkvs rest h
    simp [transform_to_sheets_format, updKey, h, updIdx, setObjKey]
  · intro now as kvs k0 k1 k2 rest h
    simp [transform_to_todo_format, updKey, h, updIdx, setObjKey,
      kvLookup_setKey_self, List.set]

/-- Witness for C10 at concrete well-shaped templates. -/
theorem template_structural_precondition_witness :
    (transform_to_sheets_format now0 [exDue3] (Json.obj
       [("sheet_tabs", Json.arr [Json.obj []])])).isSome = true ∧
    (transform_to_todo_format now0 [exDue3] (Json.obj
       [("categories", Json.arr [Json.obj [], Json.obj [], Json.obj []])])).isSome = true :=
  ⟨template_structural_precondition.1 now0 [exDue3]
      [("sheet_tabs", Json.arr [Json.obj []])] [] [] rfl,
   template_structural_precondition.2.1 now0 [exDue3]
      [("categories", Json.arr [Json.obj [], Json.obj [], Json.obj []])] [] [] [] [] rfl⟩

/-- C8: each transformation changes only its kind-specific slot of the
template and passes every other part through unchanged: `to_sheets`
touches only the `rows` key of the first sheet tab (other top-level
keys, the tab count, the later tabs and the other keys of the first tab
are unchanged); `to_notion` touches only the `pages` key; `to_todo`
touches only the `tasks` keys of the first three categories. -/
theorem template_frame :
    (∀ (now : Int) (as : List Assignment) (t out : Json),
      transform_to_sheets_format now as t = some out →
      (∀ k, k ≠ "sheet_tabs" → getKey k out = getKey k t) ∧
      (∀ v v2, getKey "sheet_tabs" t = some v → getKey "sheet_tabs" out = some v2 →
        arrLen v2 = arrLen v ∧
        (∀ i, i ≠ 0 → getIdx i v2 = getIdx i v) ∧
        (∀ x x2, getIdx 0 v = some x → getIdx 0 v2 = some x2 →
          ∀ k, k ≠ "rows" → getKey k x2 = getKey k x))) ∧
    (∀ (as : List Assignment) (t out : Json),
      transform_to_notion_format as t = some out →
      ∀ k, k ≠ "pages" → getKey k out = getKey k t) ∧
    (∀ (now : Int) (as : List Assignment) (t out : Json),
      transform_to_todo_format now as t = some out →
      (∀ k, k ≠ "categories" → getKey k out = getKey k t) ∧
      (∀ v v2, getKey "categories" t = some v → getKey "categories" out = some v2 →
        arrLen v2 = arrLen v ∧
        (∀ i, 3 ≤ i → getIdx i v2 = getIdx i v) ∧
        (∀ i, i < 3 → ∀ x x2, getIdx i v = some x → getIdx i v2 = some x2 →
          ∀ k, k ≠ "tasks" → getKey k x2 = getKey k x))) := by
  refine ⟨?_, ?_, ?_⟩
  · intro now as t out h
    unfold transform_to_sheets_format at h
    refine ⟨fun k hk => updKey_getKey_other _ _ _ _ _ h hk, ?_⟩
    intro v v2 hv hv2
    obtain ⟨w, w2, hw, hf, hg⟩ := updKey_getKey_self _ _ _ _ h
    have e1 : w = v := Option.some.inj (hw.symm.trans hv)
    have e2 : w2 = v2 := Option.some.inj (hg.symm.trans hv2)
    subst e1; subst e2
    refine ⟨updIdx_arrLen _ _ _ _ hf,
      fun i hi => updIdx_getIdx_other _ _ _ _ _ hf hi, ?_⟩
    intro x x2 hx hx2 k hk
    obtain ⟨y, y2, hy, hfy, hy2⟩ := updIdx_getIdx_self _ _ _ _ hf
    have e3 : y = x := Option.some.inj (hy.symm.trans hx)
    have e4 : y2 = x2 := Option.some.inj (hy2.symm.trans hx2)
    subst e3; subst e4
    exact setObjKey_getKey_other _ _ _ _ _ hfy hk
  · intro as t out h
    unfold transform_to_notion_format at h
    exact fun k hk => setObjKey_getKey_other _ _ _ _ _ h hk
  · intro now as t out h
    simp only [transform_to_todo_format, Option.bind_eq_some] at h
    obtain ⟨t1, e1, t2, e2, e3⟩ := h
    constructor
    · intro k hk
      rw [updKey_getKey_other _ _ _ _ _ e3 hk, updKey_getKey_other _ _ _ _ _ e2 hk,
        updKey_getKey_other _ _ _ _ _ e1 hk]
    · intro v v2 hv hv2
      obtain ⟨w0, w0', hw0, hf0, hg0⟩ := updKey_getKey_self _ _ _ _ e1
      obtain ⟨w1, w1', hw1, hf1, hg1⟩ := updKey_getKey_self _ _ _ _ e2
      obtain ⟨w2, w2', hw2, hf2, hg2⟩ := updKey_getKey_self _ _ _ _ e3
      have ev0 : v = w0 := Option.some.inj (hv.symm.trans hw0)
      have ev1 : w0' = w1 := Option.some.inj (hg0.symm.trans hw1)
      have ev2 : w1' = w2 := Option.some.inj (hg1.symm.trans hw2)
      have ev3 : v2 = w2' := Option.some.inj (hv2.symm.trans hg2)
      subst ev0; subst ev1; subst ev2; subst ev3
      refine ⟨?_, ?_, ?_⟩
      · rw [updIdx_arrLen _ _ _ _ hf2, updIdx_arrLen _ _ _ _ hf1,
          updIdx_arrLen _ _ _ _ hf0]
      · intro i hi
        rw [updIdx_getIdx_other _ _ _ _ _ hf2 (by omega),
          updIdx_getIdx_other _ _ _ _ _ hf1 (by omega),
          updIdx_getIdx_other _ _ _ _ _ hf0 (by omega)]
      · intro i hi x x2 hx hx2 k hk
        interval_cases i
        · obtain ⟨y, y2, hy, hfy, hy2⟩ := updIdx_getIdx_self _ _ _ _ hf0
          have p1 : getIdx 0 w1' = getIdx 0 w0' :=
            updIdx_getIdx_other 1 0 _ _ _ hf1 (by decide)
          have p2 : getIdx 0 v2 = getIdx 0 w1' :=
            updIdx_getIdx_other 2 0 _ _ _ hf2 (by decide)
          have ey : y = x := Option.some.inj (hy.symm.trans hx)
          have ey2 : y2 = x2 := by
            have q : getIdx 0 v2 = some y2 := p2.trans (p1.trans hy2)
            exact Option.some.inj (q.symm.trans hx2)
          subst ey; subst ey2
          exact setObjKey_getKey_other _ _ _ _ _ hfy hk
        · obtain ⟨y, y2, hy, hfy, hy2⟩ := updIdx_getIdx_self _ _ _ _ hf1
          have p0 : getIdx 1 w0' = getIdx 1 v :=
            updIdx_getIdx_other 0 1 _ _ _ hf0 (by decide)
          have p2 : getIdx 1 v2 = getIdx 1 w1' :=
            updIdx_getIdx_other 2 1 _ _ _ hf2 (by decide)
          have ey : y = x := by
            rw [p0] at hy
            exact Option.some.inj (hy.symm.trans hx)
          have ey2 : y2 = x2 := by
            have q : getIdx 1 v2 = some y2 := p2.trans hy2
            exact Option.some.inj (q.symm.trans hx2)
          subst ey; subst ey2
          exact setObjKey_getKey_other _ _ _ _ _ hfy hk
        · obtain ⟨y, y2, hy, hfy, hy2⟩ := updIdx_getIdx_self _ _ _ _ hf2
          have p0 : getIdx 2 w0' = getIdx 2 v :=
            updIdx_getIdx_other 0 2 _ _ _ hf0 (by decide)
          have p1 : getIdx 2 w1' = getIdx 2 w0' :=
            updIdx_getIdx_other 1 2 _ _ _ hf1 (by decide)
          have ey : y = x := by
            rw [p1, p0] at hy
            exact Option.some.inj (hy.symm.trans hx)
          have ey2 : y2 = x2 := Option.some.inj (hy2.symm.trans hx2)
          subst ey; subst ey2
          exact setObjKey_getKey_other _ _ _ _ _ hfy hk

/-- Witness for C8 on concrete templates carrying extra keys: the extra
top-level key of each template is passed through unchanged. -/
theorem template_frame_witness :
    getKey "name" (Json.obj [("name", Json.str "T"), ("sheet_tabs", Json.arr
        [Json.obj [("tab", Json.str "A"), ("rows", Json.arr [])], Json.str "x"])]) =
      getKey "name" (Json.obj [("name", Json.str "T"), ("sheet_tabs", Json.arr
        [Json.obj [("tab", Json.str "A")], Json.str "x"])]) ∧
    getKey "icon" (Json.obj [("icon", Json.str "book"), ("pages", Json.arr [])]) =
      getKey "icon" (Json.obj [("icon", Json.str "book")]) ∧
    getKey "list_name" (Json.obj [("list_name", Json.str "L"), ("categories", Json.arr
        [Json.obj [("name", Json.str "u"), ("tasks", Json.arr [])],
         Json.obj [("name", Json.str "i"), ("tasks", Json.arr [])],
         Json.obj [("name", Json.str "r"), ("tasks", Json.arr [])]])]) =
      getKey "list_name" (Json.obj [("list_name", Json.str "L"), ("categories", Json.arr
        [Json.obj [("name", Json.str "u")], Json.obj [("name", Json.str "i")],
         Json.obj [("name", Json.str "r")]])]) :=
  ⟨(template_frame.1 now0 [] (Json.obj [("name", Json.str "T"), ("sheet_tabs", Json.arr
        [Json.obj [("tab", Json.str "A")], Json.str "x"])]) _ rfl).1 "name" (by decide),
   template_frame.2.1 [] (Json.obj [("icon", Json.str "book")]) _ rfl "icon" (by decide),
   (template_frame.2.2 now0 [] (Json.obj [("list_name", Json.str "L"), ("categories", Json.arr
        [Json.obj [("name", Json.str "u")], Json.obj [("name", Json.str "i")],
         Json.obj [("name", Json.str "r")]])]) _ rfl).1 "list_name" (by decide)⟩
